import Mathlib

/-!
Shallow embedding of the `jirka-m97/plant-phenotyping-pipeline` repository
(laboratory-automation scripts for plant phenotyping), covering the parts of
the code referenced by the checked claims:

* `photogrammetry_pipeline/Plant3D.py` — config validation, the cylindrical
  crop `cut_cuvette`, the CRS height metric, area/volume extraction and the
  metrics line appended per sample folder;
* `photogrammetry_pipeline/photogramm_analysis.py` — `convert_command`,
  `get_next_image_index` and the step structure of the `__main__` workflow;
* `photogrammetry_pipeline/Photogram3D.py` and `Fotogram3D.py` —
  `monitor_folder`;
* `photogrammetry_pipeline/arduino_upload.py` and
  `photogrammetric_analysis/arduino_upload.py` — `upload_arduino`;
* `multispectral_pipeline/camera_control_and_acquisition.py` — the
  retrieve/queue buffer discipline of the two loops of `acquire_images`.

Python strings are modelled as `List Char`, machine floats as `ℚ`, fallible
vendor-API calls as `Option`-valued fields, and the effectful scripts as pure
functions from step outcomes to event traces.
-/

/-! ## Python string primitives over `List Char` -/

/-- Python strings, modelled as lists of characters. -/
abbrev PyStr := List Char

/-- Python `s.lower()` (the filenames and literals involved are ASCII, where
`Char.toLower` agrees with Python). -/
def pyLower (s : PyStr) : PyStr := s.map Char.toLower

/-- Python `s.startswith(p)`. -/
def pyStartsWith (p s : PyStr) : Bool := List.isPrefixOf p s

/-- Python `s.endswith(p)`. -/
def pyEndsWith (p s : PyStr) : Bool := List.isSuffixOf p s

/-- Python `s.strip()` (whitespace stripped from both ends). -/
def pyStrip (s : PyStr) : PyStr :=
  ((s.dropWhile Char.isWhitespace).reverse.dropWhile Char.isWhitespace).reverse

/-- Fuel-driven core of Python `s.replace(pat, rep)` for a non-empty pattern:
left-to-right, non-overlapping replacement of every occurrence.  The fuel is
always instantiated with the length of the string, which bounds the number of
recursive steps. -/
def pyReplaceFuel (pat rep : PyStr) : Nat → PyStr → PyStr
  | _, [] => []
  | 0, s => s
  | fuel + 1, c :: rest =>
    if List.isPrefixOf pat (c :: rest) && !pat.isEmpty then
      rep ++ pyReplaceFuel pat rep fuel (List.drop (pat.length - 1) rest)
    else
      c :: pyReplaceFuel pat rep fuel rest

/-- Python `s.replace(pat, rep)` (for the non-empty patterns used by the
scripts). -/
def pyReplace (pat rep s : PyStr) : PyStr := pyReplaceFuel pat rep s.length s

/-! ## Decimal digits (used by `Img_{i:03}.jpg` names and `f"{x:.3f}"`) -/

/-- The ASCII digit character for a value `d < 10`. -/
def digitChar (d : Nat) : Char :=
  match d with
  | 0 => '0' | 1 => '1' | 2 => '2' | 3 => '3' | 4 => '4'
  | 5 => '5' | 6 => '6' | 7 => '7' | 8 => '8' | _ => '9'

/-- Numeric value of an ASCII digit character. -/
def digitVal (c : Char) : Nat := c.toNat - '0'.toNat

/-- Fuel-driven big-endian decimal digits of a natural number (`[]` for 0). -/
def natToDigitsAux : Nat → Nat → List Char
  | 0, _ => []
  | fuel + 1, n =>
    if n = 0 then []
    else if n < 10 then [digitChar n]
    else natToDigitsAux fuel (n / 10) ++ [digitChar (n % 10)]

/-- Big-endian decimal digits of a natural number; `0` renders as `"0"`. -/
def natToDigits (n : Nat) : List Char :=
  if n = 0 then ['0'] else natToDigitsAux (n + 1) n

/-- Numeric value of a digit string (the behaviour of Python `int` on a
non-empty digit string, leading zeros allowed). -/
def parseDigits (s : List Char) : Nat := s.foldl (fun a c => 10 * a + digitVal c) 0

/-- Python `f"{i:03}"`: decimal digits of `i` left-padded with zeros to width
at least 3. -/
def pad3 (i : Nat) : List Char :=
  let d := natToDigits i
  List.replicate (3 - d.length) '0' ++ d

/-! ## `photogrammetry_pipeline/photogramm_analysis.py` -/

namespace PhotogrammAnalysis

/-- The command header tested by `command.startswith("Move J [*]")`. -/
def moveHeader : PyStr := ("Move J [*]").data

/-- The header-with-space pattern of `command.replace("Move J [*] ", "MJ")`. -/
def moveHeaderSp : PyStr := ("Move J [*] ").data

/-- The token list iterated by the `for part in [...]` loop of
`convert_command` (source line 113), in source order. -/
def tokenList : List PyStr :=
  [" X ", " Y ", " Z ", " Rz ", " Ry ", " Rx ", " J7 ", " J8 ", " J9 ",
   " Sp ", " Ac ", " Dc ", " Rm ", " $ "].map String.data

/-- `convert_command` (source lines 110–117): commands starting with
`"Move J [*]"` have `"Move J [*] "` replaced by `"MJ"` (Python `str.replace`,
i.e. every occurrence), each token replaced by its `strip()`ped form, and
`"Lm000000"` appended; other commands are returned unchanged. -/
def convert_command (command : PyStr) : PyStr :=
  if pyStartsWith moveHeader command then
    let cmd := pyReplace moveHeaderSp ("MJ").data command
    let cmd := tokenList.foldl (fun acc part => pyReplace part (pyStrip part) acc) cmd
    cmd ++ ("Lm000000").data
  else command

/-- Modelled from the words of claim C7 (not from the source): the same
transformation except that `"Move J [*] "` is replaced by `"MJ"` only at the
start of the command. -/
def convert_command_claimC7 (command : PyStr) : PyStr :=
  if pyStartsWith moveHeader command then
    let cmd :=
      if pyStartsWith moveHeaderSp command then
        ("MJ").data ++ command.drop moveHeaderSp.length
      else command
    let cmd := tokenList.foldl (fun acc part => pyReplace part (pyStrip part) acc) cmd
    cmd ++ ("Lm000000").data
  else command

/-- Written from the amended wording of claim C7: every occurrence of
`"Move J [*] "` becomes `"MJ"`, then every occurrence of each listed token is
replaced by the token with its surrounding spaces removed (in list order), and
`"Lm000000"` is appended.  The stripped forms are spelled out literally. -/
def convert_command_specC7 (command : PyStr) : PyStr :=
  if pyStartsWith moveHeader command then
    let pairs : List (PyStr × PyStr) :=
      [(" X ", "X"), (" Y ", "Y"), (" Z ", "Z"), (" Rz ", "Rz"), (" Ry ", "Ry"),
       (" Rx ", "Rx"), (" J7 ", "J7"), (" J8 ", "J8"), (" J9 ", "J9"),
       (" Sp ", "Sp"), (" Ac ", "Ac"), (" Dc ", "Dc"), (" Rm ", "Rm"),
       (" $ ", "$")].map (fun p => (p.1.data, p.2.data))
    let cmd := pyReplace moveHeaderSp ("MJ").data command
    let cmd := pairs.foldl (fun acc p => pyReplace p.1 p.2 acc) cmd
    cmd ++ ("Lm000000").data
  else command

/-- Result of matching the compiled pattern `Img_(\d+)\.jpg` against the start
of a filename (`re.match`, no end anchor), as used by `get_next_image_index`
(source lines 190–197): the captured digits as an integer, or `none` when the
name does not match.  Since `.` is not a digit, the greedy `\d+` with
backtracking matches exactly the maximal digit run, which must be non-empty
and immediately followed by `".jpg"`. -/
def imgIndexOf (f : PyStr) : Option Nat :=
  if pyStartsWith ("Img_").data f then
    let rest := f.drop 4
    let digs := rest.takeWhile Char.isDigit
    if !digs.isEmpty && pyStartsWith (".jpg").data (rest.drop digs.length) then
      some (parseDigits digs)
    else none
  else none

/-- `get_next_image_index` (source lines 190–197): one plus the maximum
captured index over the folder listing, with `max(..., default=0)`. -/
def get_next_image_index (folder : List PyStr) : Nat :=
  (folder.filterMap imgIndexOf).foldl max 0 + 1

/-- The filename `f"Img_{i:03}.jpg"` written by `capture_single_image` /
`capture_multiple_images` for index `i`. -/
def imgFileName (i : Nat) : PyStr := ("Img_").data ++ pad3 i ++ (".jpg").data

/-- Step outcomes of the `__main__` workflow (source lines 205–314): whether
each fallible operation succeeds.  `endPositioningOk` is step 7 (`P_END`). -/
structure RunOutcomes where
  uploadZeroOk : Bool
  positioningOk : Bool
  qrCaptureOk : Bool
  qrFolderOk : Bool
  uploadContinuousOk : Bool
  posesOk : Bool
  endPositioningOk : Bool
deriving DecidableEq

/-- Observable events of the `__main__` workflow: `step n` is the successful
completion of numbered step `n` (8 = closing the serial port, followed by the
final `[DONE]` print, `done`), `logError n` the `[ERROR]` print of step `n`,
and `exitCode c` a `sys.exit(c)` call. -/
inductive ScriptEvent
  | step (n : Nat)
  | logError (n : Nat)
  | exitCode (c : Nat)
  | done
deriving DecidableEq

/-- Steps 5–8 of the workflow (source lines 250–314), reached after the QR
folder has been created. -/
def mainAfterQR (o : RunOutcomes) : List ScriptEvent :=
  if o.uploadContinuousOk then
    ScriptEvent.step 5 ::
      (if o.posesOk then
        ScriptEvent.step 6 ::
          ((if o.endPositioningOk then [ScriptEvent.step 7]
            else [ScriptEvent.logError 7]) ++ [ScriptEvent.step 8, ScriptEvent.done])
      else [ScriptEvent.logError 6, ScriptEvent.exitCode 1])
  else [ScriptEvent.logError 5, ScriptEvent.exitCode 1]

/-- Event trace of the `__main__` workflow (source lines 205–314) as a
function of the step outcomes.  Mirrors the control flow: steps 2–4 run inside
the `if upload_arduino(...)` branch and exit with code 1 on failure; step 7
catches its exception, logs it and falls through to step 8 without exiting. -/
def photogramm_analysis_main (o : RunOutcomes) : List ScriptEvent :=
  if o.uploadZeroOk then
    ScriptEvent.step 1 ::
      (if o.positioningOk then
        ScriptEvent.step 2 ::
          (if o.qrCaptureOk then
            ScriptEvent.step 3 ::
              (if o.qrFolderOk then ScriptEvent.step 4 :: mainAfterQR o
               else [ScriptEvent.logError 4, ScriptEvent.exitCode 1])
          else [ScriptEvent.logError 3, ScriptEvent.exitCode 1])
      else [ScriptEvent.logError 2, ScriptEvent.exitCode 1])
  else [ScriptEvent.logError 1, ScriptEvent.exitCode 1]

end PhotogrammAnalysis

/-! ## The two `arduino_upload.py` helpers -/

/-- A `subprocess.run(cmd, cwd=cwd, ...)` invocation: its argument vector and
working directory. -/
structure UploadCall where
  argv : List PyStr
  cwd : PyStr
deriving DecidableEq

/-- Outcome model for `subprocess.run`: the return code of each possible
invocation. -/
abbrev SubprocessSem := UploadCall → Int

namespace PhotogrammetryPipelineUpload

/-- `arduino_cli_path = arduino_cli_dir + r".\arduino-cli.exe"` from
`photogrammetry_pipeline/arduino_upload.py` line 20 (note the dot before the
backslash in the raw string). -/
def arduinoCliPath (arduino_cli_dir : PyStr) : PyStr :=
  arduino_cli_dir ++ (".\\arduino-cli.exe").data

/-- The compile invocation of `upload_arduino` (source line 30). -/
def compileCall (arduino_file fqbn arduino_cli_dir : PyStr) : UploadCall :=
  ⟨[arduinoCliPath arduino_cli_dir, ("compile").data, ("--fqbn").data, fqbn,
    arduino_file], arduino_cli_dir⟩

/-- The upload invocation of `upload_arduino` (source line 35). -/
def uploadCall (arduino_file port fqbn arduino_cli_dir : PyStr) : UploadCall :=
  ⟨[arduinoCliPath arduino_cli_dir, ("upload").data, ("-p").data, port,
    ("--fqbn").data, fqbn, arduino_file], arduino_cli_dir⟩

/-- `upload_arduino` from `photogrammetry_pipeline/arduino_upload.py` lines
19–40, as a function of the subprocess semantics: returns the boolean result
together with the list of subprocesses actually executed, in order.
`run_command` returns `returncode == 0`; a failing compile returns `False`
before the upload subprocess is ever started. -/
def upload_arduino (exec : SubprocessSem)
    (arduino_file port fqbn arduino_cli_dir : PyStr) : Bool × List UploadCall :=
  let c := compileCall arduino_file fqbn arduino_cli_dir
  if exec c = 0 then
    let u := uploadCall arduino_file port fqbn arduino_cli_dir
    if exec u = 0 then (true, [c, u]) else (false, [c, u])
  else (false, [c])

end PhotogrammetryPipelineUpload

namespace PhotogrammetricAnalysisUpload

/-- `arduino_cli_path = arduino_cli_dir + r"\arduino-cli.exe"` from
`photogrammetric_analysis/arduino_upload.py` line 4 (no dot). -/
def arduinoCliPath (arduino_cli_dir : PyStr) : PyStr :=
  arduino_cli_dir ++ ("\\arduino-cli.exe").data

/-- The compile invocation of `upload_arduino` (source line 14). -/
def compileCall (arduino_file fqbn arduino_cli_dir : PyStr) : UploadCall :=
  ⟨[arduinoCliPath arduino_cli_dir, ("compile").data, ("--fqbn").data, fqbn,
    arduino_file], arduino_cli_dir⟩

/-- The upload invocation of `upload_arduino` (source line 19). -/
def uploadCall (arduino_file port fqbn arduino_cli_dir : PyStr) : UploadCall :=
  ⟨[arduinoCliPath arduino_cli_dir, ("upload").data, ("-p").data, port,
    ("--fqbn").data, fqbn, arduino_file], arduino_cli_dir⟩

/-- `upload_arduino` from `photogrammetric_analysis/arduino_upload.py` lines
3–24; identical control flow to the `photogrammetry_pipeline` copy but with
its own executable path. -/
def upload_arduino (exec : SubprocessSem)
    (arduino_file port fqbn arduino_cli_dir : PyStr) : Bool × List UploadCall :=
  let c := compileCall arduino_file fqbn arduino_cli_dir
  if exec c = 0 then
    let u := uploadCall arduino_file port fqbn arduino_cli_dir
    if exec u = 0 then (true, [c, u]) else (false, [c, u])
  else (false, [c])

end PhotogrammetricAnalysisUpload

/-! ## `Photogram3D.py` / `Fotogram3D.py` — `monitor_folder` -/

namespace Photogram3D

/-- `f.lower().endswith(('.jpg', '.jpeg', '.png'))` from the `monitor_folder`
image filter (Photogram3D.py line 35, Fotogram3D.py line 27). -/
def isImageFile (f : PyStr) : Bool :=
  pyEndsWith (".jpg").data (pyLower f) || pyEndsWith (".jpeg").data (pyLower f) ||
    pyEndsWith (".png").data (pyLower f)

/-- One observed state of the watched folder: the file listings of its
subdirectories (the `os.listdir` entries of each subfolder). -/
abbrev FolderState := List (List PyStr)

/-- The trigger condition of `monitor_folder` (Photogram3D.py lines 30–39):
exactly `folder_amount` subdirectories, each containing exactly `image_amount`
entries passing the image filter (the inner loop with `all_valid` and
`break`). -/
def folderReady (folderAmount imageAmount : Nat) (s : FolderState) : Bool :=
  s.length == folderAmount &&
    s.all (fun sub => (sub.filter isImageFile).length == imageAmount)

/-- Observable events of the polling loop: sleeping for `secs` seconds, or
launching `trigger_analysis()` (which runs `Plant3D.py`). -/
inductive MonitorEvent
  | sleep (secs : Nat)
  | trigger
deriving DecidableEq

/-- `monitor_folder` (Photogram3D.py lines 24–43; Fotogram3D.py lines 16–35 is
the same loop with config-loaded amounts): at each iteration the folder is
listed; if the condition holds the analysis is triggered and the loop breaks,
otherwise the loop sleeps 10 seconds and re-checks.  The `while True` loop is
driven by the (finite prefix of the) sequence of observed folder states. -/
def monitor_folder (folderAmount imageAmount : Nat) :
    List FolderState → List MonitorEvent
  | [] => []
  | s :: rest =>
    if folderReady folderAmount imageAmount s then [MonitorEvent.trigger]
    else MonitorEvent.sleep 10 :: monitor_folder folderAmount imageAmount rest

end Photogram3D

/-! ## `multispectral_pipeline/camera_control_and_acquisition.py` -/

namespace CameraControl

/-- Outcome of one `RetrieveBuffer` call: whether the returned `result` is OK
and whether the buffer's `operational_result` is OK. -/
structure RetrieveOutcome where
  resultOk : Bool
  opOk : Bool
deriving DecidableEq

/-- Buffer-related events of one loop iteration of `acquire_images`:
retrieving a buffer from stream `src` (0 = Source0/RGB, 1 = Source1/NIR),
queuing a buffer back to stream `src`, or a diagnostic print. -/
inductive AcqEvent
  | retrieveFrom (src : Nat)
  | queueTo (src : Nat)
  | logLine
deriving DecidableEq

/-- One iteration of the alternating acquisition loop (source lines 283–420),
with `source1Active` mirroring `recieived_frames_for_source != 0`.  The main
stream is retrieved first (error printed on failure); the other ("trash")
stream is retrieved and its buffer queued back only when its result is OK;
then, if the main result is OK, the image is processed (prints abstracted to
`logLine`) and the main buffer is queued back to its own stream regardless of
the operational result, else an error is printed. -/
def altIteration (source1Active : Bool) (mainR trashR : RetrieveOutcome) :
    List AcqEvent :=
  let mainSrc := if source1Active then 1 else 0
  let trashSrc := if source1Active then 0 else 1
  [AcqEvent.retrieveFrom mainSrc] ++
    (if mainR.resultOk then [] else [AcqEvent.logLine]) ++
    [AcqEvent.retrieveFrom trashSrc] ++
    (if trashR.resultOk then [AcqEvent.queueTo trashSrc] else []) ++
    (if mainR.resultOk then
      (if mainR.opOk then [AcqEvent.logLine] else [AcqEvent.logLine]) ++
        [AcqEvent.queueTo mainSrc]
    else [AcqEvent.logLine])

/-- One iteration of the paired RGB+NIR loop (source lines 429–453): both
streams are retrieved; each buffer is processed/saved and queued back only
inside the `if result.IsOK() and operational_result.IsOK()` branch, otherwise
only an error is printed. -/
def pairedIteration (rgb nir : RetrieveOutcome) : List AcqEvent :=
  [AcqEvent.retrieveFrom 0, AcqEvent.retrieveFrom 1] ++
    (if rgb.resultOk && rgb.opOk then [AcqEvent.queueTo 0] else [AcqEvent.logLine]) ++
    (if nir.resultOk && nir.opOk then [AcqEvent.queueTo 1] else [AcqEvent.logLine])

end CameraControl

/-! ## `photogrammetry_pipeline/Plant3D.py` -/

namespace Plant3D

/-- A JSON scalar value as loaded by `json.load` into `config` (the config
values used by the script are strings, numbers, booleans or `null`). -/
inductive JVal
  | null
  | str (s : PyStr)
  | num (q : ℚ)
  | jbool (b : Bool)
deriving DecidableEq

/-- The loaded `config` dictionary. -/
abbrev Config := List (PyStr × JVal)

/-- Python `config.get(k)`: the value of the first matching key, `None`
(= `Option.none`) when the key is absent. -/
def configGet (cfg : Config) (k : PyStr) : Option JVal :=
  (cfg.find? (fun kv => kv.1 == k)).map (fun kv => kv.2)

/-- `REQUIRED_KEYS` (source lines 17–27). -/
def REQUIRED_KEYS : List PyStr :=
  ["SOURCE_FOLDER_PATH", "RESULTS_FOLDER_PATH", "PROJECT_NAME", "CENTER_X",
   "CENTER_Y", "RADIUS", "Z_MIN", "Z_MAX", "Z_LIM"].map String.data

/-- Python `config.get(k) in (None, "")` (source line 28): membership is by
`==`, so only an absent key, a JSON `null` or the empty string count; numbers
(including `0`) and booleans compare unequal to both `None` and `""`. -/
def isMissingVal : Option JVal → Bool
  | none => true
  | some JVal.null => true
  | some (JVal.str s) => s.isEmpty
  | some _ => false

/-- `missing = [k for k in REQUIRED_KEYS if config.get(k) in (None, "")]`
(source line 28). -/
def missingKeys (cfg : Config) : List PyStr :=
  REQUIRED_KEYS.filter (fun k => isMissingVal (configGet cfg k))

/-- The startup validation (source lines 28–30): `some keys` models the raised
`KeyError` naming the offending keys, `none` means validation passes. -/
def configValidationError (cfg : Config) : Option (List PyStr) :=
  if missingKeys cfg ≠ [] then some (missingKeys cfg) else none

/-- A 3-D point with rational coordinates (Python floats modelled as `ℚ`). -/
structure Vec3 where
  x : ℚ
  y : ℚ
  z : ℚ
deriving DecidableEq

/-- Crop parameters of `cut_cuvette`, read from the config (source lines
258–261). -/
structure CutConfig where
  centerX : ℚ
  centerY : ℚ
  radius : ℚ
  zMin : ℚ
  zMax : ℚ
  zLim : ℚ
deriving DecidableEq

/-- A Metashape model as used by the claims: vertex coordinates, faces as
vertex-index triples (kept as lists), and the outcomes of the `area()` and
`volume()` calls (`none` models the call raising, as caught by
`compute_area_volume`). -/
structure MeshModel where
  vertices : List Vec3
  faces : List (List Nat)
  areaResult : Option ℚ
  volumeResult : Option ℚ

/-- The per-vertex cylinder test of `cut_cuvette` (source line 280):
`dx*dx + dy*dy <= radius*radius and bottom_z <= z <= top_z` for the projected
point. -/
def inCylinder (cfg : CutConfig) (p : Vec3) : Bool :=
  decide ((p.x - cfg.centerX) * (p.x - cfg.centerX) +
      (p.y - cfg.centerY) * (p.y - cfg.centerY) ≤ cfg.radius * cfg.radius ∧
    cfg.zMin ≤ p.z ∧ p.z ≤ cfg.zMax)

/-- The projected coordinates of a face's vertices (source lines 272–278):
`proj` models `crs.project(T.mulp(·))` — the chunk transform followed by the
CRS projection when a CRS is present.  Vertex lookup `new_model.vertices[vid]`
is total in Python for the in-range indices of a well-formed mesh; out-of-range
indices (which would raise) are given a default here and never arise in the
instances used. -/
def faceCoords (proj : Vec3 → Vec3) (verts : List Vec3) (face : List Nat) :
    List Vec3 :=
  face.map (fun vid => proj (verts.getD vid ⟨0, 0, 0⟩))

/-- The selection decision for one face (source lines 269–287): `inside_cyl`
stays true iff every projected vertex passes the cylinder test, `below_lim`
becomes true iff some projected vertex has `z < z_lim`, and the face is
selected iff `inside_cyl and (not below_lim)`. -/
def faceSelected (cfg : CutConfig) (proj : Vec3 → Vec3) (verts : List Vec3)
    (face : List Nat) : Bool :=
  let coords := faceCoords proj verts face
  coords.all (fun p => inCylinder cfg p) && !coords.any (fun p => decide (p.z < cfg.zLim))

/-- `cut_cuvette` acting on the duplicated model (source lines 254–291):
`removeSelection()` deletes exactly the selected faces, so the cropped model
keeps the faces that were not selected. -/
def cut_cuvette (cfg : CutConfig) (proj : Vec3 → Vec3) (m : MeshModel) :
    MeshModel :=
  { m with faces := m.faces.filter (fun f => !faceSelected cfg proj m.vertices f) }

/-- `calculate_height_crs` (source lines 301–316) with `projZ` modelling the
`z` coordinate of `crs.project(T.mulp(·))` (or of `T.mulp(·)` when there is no
CRS): `none` when there is no model, otherwise the running max minus the
running min over the projected vertices.  (For a model with an empty vertex
list the Python code would produce `-inf`, a float artefact outside this
rational model; built meshes always have vertices.) -/
def calculate_height_crs (projZ : Vec3 → ℚ) (model : Option MeshModel) :
    Option ℚ :=
  match model with
  | none => none
  | some m =>
    match m.vertices.map projZ with
    | [] => none
    | z :: zs => some (zs.foldl max z - zs.foldl min z)

/-- `compute_area_volume` (source lines 318–333): `(None, None)` without a
model; otherwise the `area()` outcome as is and the absolute value of the
`volume()` outcome, each `None` when the call raised. -/
def compute_area_volume (model : Option MeshModel) : Option ℚ × Option ℚ :=
  match model with
  | none => (none, none)
  | some m => (m.areaResult, m.volumeResult.map (fun v => |v|))

/-- Round half to even at integer precision (the rounding of Python float
formatting, idealised over `ℚ`). -/
def roundHalfEven (q : ℚ) : ℤ :=
  let f := Int.floor q
  let frac := q - (f : ℚ)
  if frac < 1 / 2 then f
  else if 1 / 2 < frac then f + 1
  else if f % 2 = 0 then f else f + 1

/-- Python `f"{x:.3f}"` idealised over `ℚ`: the value scaled by 1000, rounded
half to even, rendered with a sign, integer digits and exactly three decimal
digits. -/
def fmt3 (x : ℚ) : PyStr :=
  let scaled := roundHalfEven (x * 1000)
  let mag := scaled.natAbs
  (if scaled < 0 then ['-'] else []) ++ natToDigits (mag / 1000) ++
    ['.'] ++ pad3 (mag % 1000)

/-- `_fmt` (source lines 425–426): `"NA"` for a missing value, the 3-decimal
rendering otherwise. -/
def fmtMetric (x : Option ℚ) : PyStr :=
  match x with
  | none => ("NA").data
  | some v => fmt3 v

/-- The metrics line appended for a processed cut chunk (source lines
421–429): label, height, area and volume separated by tabs. -/
def metricsLine (label : PyStr) (projZ : Vec3 → ℚ) (model : Option MeshModel) :
    PyStr :=
  let height := calculate_height_crs projZ model
  let av := compute_area_volume model
  label ++ ['\t'] ++ fmtMetric height ++ ['\t'] ++ fmtMetric av.1 ++
    ['\t'] ++ fmtMetric av.2 ++ ['\n']

/-- Post-duplication operations of one main-loop iteration of `Plant3D.py`
(source lines 411–431), as a function of whether `cut_cuvette` succeeded:
on failure the loop logs "proceeding without crop" and still smooths, removes
components, closes holes and writes the metrics line. -/
inductive PlantOp
  | cutCuvetteCall
  | logNoCrop
  | smoothModelCall
  | removeComponentsCall
  | closeHolesCall
  | writeMetricsLine
deriving DecidableEq

/-- The operation sequence of the cut-chunk branch (source lines 413–431). -/
def plant3d_postCut (cutOk : Bool) : List PlantOp :=
  [PlantOp.cutCuvetteCall] ++ (if cutOk then [] else [PlantOp.logNoCrop]) ++
    [PlantOp.smoothModelCall, PlantOp.removeComponentsCall,
     PlantOp.closeHolesCall, PlantOp.writeMetricsLine]

/-- Demonstration crop parameters: unit-radius cylinder centred at the origin,
`Z` range `[0, 10]`, `Z_LIM = 0`. -/
def demoCutConfig : CutConfig := ⟨0, 0, 1, 0, 10, 0⟩

/-- Demonstration mesh (identity transform/CRS): vertices 0–2 lie inside the
cylinder at `z ≥ 0`; vertex 3 lies outside it (`x = 5`).  Face `[0, 1, 2]` is
entirely inside the cylinder and at or above `Z_LIM`; face `[3, 3, 3]` is
outside the cylinder. -/
def demoCutModel : MeshModel :=
  ⟨[⟨0, 0, 1⟩, ⟨1, 0, 1⟩, ⟨0, 0, 5⟩, ⟨5, 0, 1⟩], [[0, 1, 2], [3, 3, 3]],
    none, none⟩

end Plant3D

/-! ## Helper lemmas -/

theorem digitVal_digitChar {d : Nat} (h : d < 10) : digitVal (digitChar d) = d := by
  interval_cases d <;> rfl

theorem isDigit_digitChar {d : Nat} (h : d < 10) : (digitChar d).isDigit = true := by
  interval_cases d <;> rfl

theorem parseDigits_append_singleton (xs : List Char) (c : Char) :
    parseDigits (xs ++ [c]) = 10 * parseDigits xs + digitVal c := by
  simp [parseDigits, List.foldl_append]

theorem parseDigits_natToDigitsAux :
    ∀ fuel n, n ≤ fuel → parseDigits (natToDigitsAux (fuel + 1) n) = n := by
  intro fuel
  induction fuel with
  | zero =>
    intro n hn
    interval_cases n
    rfl
  | succ fuel ih =>
    intro n hn
    rw [natToDigitsAux]
    by_cases h0 : n = 0
    · simp [h0, parseDigits]
    · by_cases h10 : n < 10
      · simp [h0, h10, parseDigits, digitVal_digitChar h10]
      · have hdiv : n / 10 ≤ fuel := by
          have : n / 10 < n := Nat.div_lt_self (Nat.pos_of_ne_zero h0) (by omega)
          omega
        simp only [h0, h10, if_false]
        rw [parseDigits_append_singleton, ih _ hdiv,
          digitVal_digitChar (Nat.mod_lt _ (by omega))]
        omega

theorem parseDigits_natToDigits (n : Nat) : parseDigits (natToDigits n) = n := by
  rw [natToDigits]
  by_cases h0 : n = 0
  · simp [h0]; rfl
  · simp only [h0, if_false]
    exact parseDigits_natToDigitsAux n n le_rfl

theorem natToDigitsAux_digits :
    ∀ fuel n c, c ∈ natToDigitsAux fuel n → c.isDigit = true := by
  intro fuel
  induction fuel with
  | zero => intro n c hc; simp [natToDigitsAux] at hc
  | succ fuel ih =>
    intro n c hc
    rw [natToDigitsAux] at hc
    by_cases h0 : n = 0
    · simp [h0] at hc
    · by_cases h10 : n < 10
      · simp [h0, h10] at hc
        exact hc ▸ isDigit_digitChar h10
      · simp [h0, h10, List.mem_append] at hc
        rcases hc with hc | hc
        · exact ih _ _ hc
        · exact hc ▸ isDigit_digitChar (Nat.mod_lt _ (by omega))

theorem natToDigits_digits {n : Nat} {c : Char} (hc : c ∈ natToDigits n) :
    c.isDigit = true := by
  rw [natToDigits] at hc
  by_cases h0 : n = 0
  · simp [h0] at hc; simp [hc]
  · simp only [h0, if_false] at hc
    exact natToDigitsAux_digits _ _ _ hc

theorem natToDigits_ne_nil (n : Nat) : natToDigits n ≠ [] := by
  rw [natToDigits]
  by_cases h0 : n = 0
  · simp [h0]
  · simp only [h0, if_false]
    rw [natToDigitsAux]
    by_cases h10 : n < 10 <;> simp [h0, h10]

theorem parseDigits_replicate_zero :
    ∀ (k : Nat) (l : List Char),
      parseDigits (List.replicate k '0' ++ l) = parseDigits l := by
  intro k
  induction k with
  | zero => intro l; simp
  | succ k ih =>
    intro l
    rw [List.replicate_succ]
    simpa [parseDigits] using ih l

theorem pad3_digits {i : Nat} {c : Char} (hc : c ∈ pad3 i) : c.isDigit = true := by
  rw [pad3] at hc
  simp only [List.mem_append, List.mem_replicate] at hc
  rcases hc with hc | hc
  · simp [hc.2]
  · exact natToDigits_digits hc

theorem parseDigits_pad3 (i : Nat) : parseDigits (pad3 i) = i := by
  rw [pad3, parseDigits_replicate_zero, parseDigits_natToDigits]

theorem pad3_ne_nil (i : Nat) : pad3 i ≠ [] := by
  rw [pad3]
  intro h
  rcases List.append_eq_nil.mp h with ⟨-, h2⟩
  exact natToDigits_ne_nil i h2

theorem takeWhile_append_all {p : Char → Bool} :
    ∀ (l : List Char), (∀ c ∈ l, p c = true) →
      ∀ (c : Char) (cs : List Char), p c = false →
        (l ++ c :: cs).takeWhile p = l := by
  intro l
  induction l with
  | nil => intro _ c cs hc; simp [List.takeWhile, hc]
  | cons a t ih =>
    intro hl c cs hc
    have ha : p a = true := hl a (List.mem_cons_self a t)
    simp only [List.cons_append, List.takeWhile_cons, ha, if_true]
    rw [ih (fun x hx => hl x (List.mem_cons_of_mem a hx)) c cs hc]

theorem le_foldl_max {α : Type} [LinearOrder α] :
    ∀ (zs : List α) (z : α), z ≤ zs.foldl max z := by
  intro zs
  induction zs with
  | nil => intro z; simp
  | cons w ws ih =>
    intro z
    calc z ≤ max z w := le_max_left _ _
    _ ≤ ws.foldl max (max z w) := ih _
    _ = (w :: ws).foldl max z := by simp

theorem mem_le_foldl_max {α : Type} [LinearOrder α] :
    ∀ (zs : List α) (z y : α), y ∈ zs → y ≤ zs.foldl max z := by
  intro zs
  induction zs with
  | nil => intro z y hy; simp at hy
  | cons w ws ih =>
    intro z y hy
    rcases List.mem_cons.mp hy with rfl | hy
    · calc y ≤ max z y := le_max_right _ _
      _ ≤ ws.foldl max (max z y) := le_foldl_max _ _
      _ = (y :: ws).foldl max z := by simp
    · simpa using ih (max z w) y hy

theorem foldl_max_mem {α : Type} [LinearOrder α] :
    ∀ (zs : List α) (z : α), zs.foldl max z = z ∨ zs.foldl max z ∈ zs := by
  intro zs
  induction zs with
  | nil => intro z; simp
  | cons w ws ih =>
    intro z
    have h : (w :: ws).foldl max z = ws.foldl max (max z w) := by simp
    rcases ih (max z w) with h2 | h2
    · rcases max_cases z w with ⟨h3, -⟩ | ⟨h3, -⟩
      · exact Or.inl (by rw [h, h2, h3])
      · exact Or.inr (by rw [h, h2, h3]; exact List.mem_cons_self _ _)
    · exact Or.inr (by rw [h]; exact List.mem_cons_of_mem _ h2)

theorem foldl_min_le {α : Type} [LinearOrder α] :
    ∀ (zs : List α) (z : α), zs.foldl min z ≤ z := by
  intro zs
  induction zs with
  | nil => intro z; simp
  | cons w ws ih =>
    intro z
    calc (w :: ws).foldl min z = ws.foldl min (min z w) := by simp
    _ ≤ min z w := ih _
    _ ≤ z := min_le_left _ _

theorem foldl_min_le_mem {α : Type} [LinearOrder α] :
    ∀ (zs : List α) (z y : α), y ∈ zs → zs.foldl min z ≤ y := by
  intro zs
  induction zs with
  | nil => intro z y hy; simp at hy
  | cons w ws ih =>
    intro z y hy
    rcases List.mem_cons.mp hy with rfl | hy
    · calc (y :: ws).foldl min z = ws.foldl min (min z y) := by simp
      _ ≤ min z y := foldl_min_le _ _
      _ ≤ y := min_le_right _ _
    · simpa using ih (min z w) y hy

theorem foldl_min_mem {α : Type} [LinearOrder α] :
    ∀ (zs : List α) (z : α), zs.foldl min z = z ∨ zs.foldl min z ∈ zs := by
  intro zs
  induction zs with
  | nil => intro z; simp
  | cons w ws ih =>
    intro z
    have h : (w :: ws).foldl min z = ws.foldl min (min z w) := by simp
    rcases ih (min z w) with h2 | h2
    · rcases min_cases z w with ⟨h3, -⟩ | ⟨h3, -⟩
      · exact Or.inl (by rw [h, h2, h3])
      · exact Or.inr (by rw [h, h2, h3]; exact List.mem_cons_self _ _)
    · exact Or.inr (by rw [h]; exact List.mem_cons_of_mem _ h2)

namespace PhotogrammAnalysis

/-- The saved filename for index `i` round-trips through the regex capture. -/
theorem imgIndexOf_imgFileName (i : Nat) : imgIndexOf (imgFileName i) = some i := by
  have hpre : pyStartsWith ("Img_").data (imgFileName i) = true := by
    rw [pyStartsWith, imgFileName, List.isPrefixOf_iff_prefix]
    exact List.prefix_append _ _
  have hlen4 : ("Img_").data.length = 4 := rfl
  have hdrop : (imgFileName i).drop 4 = pad3 i ++ (".jpg").data := by
    rw [imgFileName, List.append_assoc, ← hlen4, List.drop_left]
  have hdot : Char.isDigit '.' = false := rfl
  have htake : (pad3 i ++ (".jpg").data).takeWhile Char.isDigit = pad3 i :=
    takeWhile_append_all (pad3 i) (fun c hc => pad3_digits hc) '.' _ hdot
  have hne : (pad3 i).isEmpty = false := by
    rcases h : pad3 i with - | ⟨c, cs⟩
    · exact absurd h (pad3_ne_nil i)
    · rfl
  have hrest : (pad3 i ++ (".jpg").data).drop (pad3 i).length = (".jpg").data :=
    List.drop_left _ _
  have hpre2 : ("Img_").data <+: imgFileName i := by
    rw [imgFileName, List.append_assoc]
    exact List.prefix_append _ _
  simp [imgIndexOf, hpre, hpre2, hdrop, htake, hne, hrest, pyStartsWith,
    List.isPrefixOf_iff_prefix, parseDigits_pad3]

end PhotogrammAnalysis

/-! ## Claim theorems -/

/-- C10: `get_next_image_index` returns one plus the largest captured index of
any `Img_(\d+).jpg`-matching file in the folder (1 when no file matches): every
captured index is strictly below the returned index, the returned index minus
one is attained by some file when any file matches, and the filename a
subsequent save would write under the returned index is not already present in
the folder. -/
theorem PhotogrammAnalysis.get_next_image_index_correct
    (folder : List PyStr) :
    (∀ f ∈ folder, ∀ n, imgIndexOf f = some n → n < get_next_image_index folder) ∧
    ((∀ f ∈ folder, imgIndexOf f = none) → get_next_image_index folder = 1) ∧
    ((∃ f ∈ folder, imgIndexOf f ≠ none) →
      ∃ f ∈ folder, imgIndexOf f = some (get_next_image_index folder - 1)) ∧
    imgFileName (get_next_image_index folder) ∉ folder := by
  have hbound : ∀ f ∈ folder, ∀ n, imgIndexOf f = some n →
      n < get_next_image_index folder := by
    intro f hf n hn
    have hmem : n ∈ folder.filterMap imgIndexOf :=
      List.mem_filterMap.mpr ⟨f, hf, hn⟩
    have := mem_le_foldl_max (folder.filterMap imgIndexOf) 0 n hmem
    rw [get_next_image_index]
    omega
  refine ⟨hbound, ?_, ?_, ?_⟩
  · intro hnone
    have hnil : folder.filterMap imgIndexOf = [] :=
      List.filterMap_eq_nil_iff.mpr hnone
    rw [get_next_image_index, hnil]
    rfl
  · intro hsome
    obtain ⟨f, hf, hn⟩ := hsome
    rcases hv : imgIndexOf f with - | n
    · exact absurd hv hn
    have hmem : n ∈ folder.filterMap imgIndexOf :=
      List.mem_filterMap.mpr ⟨f, hf, hv⟩
    have hne : folder.filterMap imgIndexOf ≠ [] := by
      intro h
      rw [h] at hmem
      simp at hmem
    rcases foldl_max_mem (folder.filterMap imgIndexOf) 0 with hmax | hmax
    · have hle : n ≤ (folder.filterMap imgIndexOf).foldl max 0 :=
        mem_le_foldl_max _ 0 n hmem
      have hn0 : n = 0 := by omega
      obtain ⟨g, hg⟩ := List.mem_filterMap.mp hmem
      refine ⟨g, hg.1, ?_⟩
      rw [hg.2, get_next_image_index, hmax]
      simp [hn0]
    · obtain ⟨g, hg⟩ := List.mem_filterMap.mp hmax
      refine ⟨g, hg.1, ?_⟩
      rw [hg.2, get_next_image_index]
      simp
  · intro hmem
    have := hbound _ hmem (get_next_image_index folder)
      (imgIndexOf_imgFileName _)
    omega

/-- C10 witness: concrete instantiations (`Img_012.jpg` present, an empty
folder, and the no-reuse fact). -/
theorem PhotogrammAnalysis.get_next_image_index_correct_witness :
    12 < get_next_image_index [("Img_012.jpg").data, ("notes.txt").data] ∧
    get_next_image_index [("notes.txt").data] = 1 ∧
    imgFileName (get_next_image_index [("Img_012.jpg").data]) ∉
      [("Img_012.jpg").data] :=
  ⟨(get_next_image_index_correct _).1 (("Img_012.jpg").data) (by decide) 12 (by decide),
   (get_next_image_index_correct _).2.1 (by decide),
   (get_next_image_index_correct _).2.2.2⟩

/-- C4: `monitor_folder` sleeps 10 seconds at every check at which the folder
does not hold exactly `folderAmount` subdirectories of exactly `imageAmount`
image files each, and fires the analysis trigger exactly once, at the first
check at which it does (then stops); the readiness test is exactly the
subdirectory count equality plus the per-subdirectory image count equality
over lower-cased `.jpg`/`.jpeg`/`.png` names. -/
theorem Photogram3D.monitor_folder_correct (folderAmount imageAmount : Nat)
    (states : List FolderState) :
    monitor_folder folderAmount imageAmount states =
      (states.takeWhile
          (fun s => !folderReady folderAmount imageAmount s)).map
        (fun _ => MonitorEvent.sleep 10) ++
      (if states.any (fun s => folderReady folderAmount imageAmount s) then
        [MonitorEvent.trigger]
      else []) ∧
    ∀ s : FolderState,
      folderReady folderAmount imageAmount s = true ↔
        (s.length = folderAmount ∧
          ∀ sub ∈ s, (sub.filter isImageFile).length = imageAmount) := by
  constructor
  · induction states with
    | nil => simp [monitor_folder]
    | cons s rest ih =>
      rcases hr : folderReady folderAmount imageAmount s with - | -
      · simpa [monitor_folder, hr] using ih
      · simp [monitor_folder, hr]
  · intro s
    simp [folderReady, List.all_eq_true]

/-- C4 witness: a non-ready snapshot followed by a ready one yields one sleep
then one trigger; an over-full snapshot does not trigger. -/
theorem Photogram3D.monitor_folder_correct_witness :
    monitor_folder 1 1 [[], [[("a.JPG").data]]] =
      [MonitorEvent.sleep 10, MonitorEvent.trigger] ∧
    monitor_folder 1 1 [[[("a.jpg").data], [("b.jpg").data]]] =
      [MonitorEvent.sleep 10] ∧
    folderReady 1 1 [[("a.JPG").data]] = true :=
  ⟨by rw [(monitor_folder_correct 1 1 [[], [[("a.JPG").data]]]).1]; decide,
   by rw [(monitor_folder_correct 1 1 [[[("a.jpg").data], [("b.jpg").data]]]).1]; decide,
   ((monitor_folder_correct 1 1 []).2 [[("a.JPG").data]]).mpr (by decide)⟩

/-- C9: the `Plant3D.py` startup validation raises a `KeyError` naming exactly
the offending required keys iff some required key is absent, JSON `null`, or
the empty string; numeric values (including 0) never count as missing, and the
outcome depends only on the values of the nine required keys. -/
theorem Plant3D.config_validation_correct (cfg : Config) :
    ((configValidationError cfg).isSome ↔
      ∃ k ∈ REQUIRED_KEYS, configGet cfg k = none ∨
        configGet cfg k = some JVal.null ∨ configGet cfg k = some (JVal.str [])) ∧
    (∀ ks, configValidationError cfg = some ks →
      ∀ k, k ∈ ks ↔ (k ∈ REQUIRED_KEYS ∧
        (configGet cfg k = none ∨ configGet cfg k = some JVal.null ∨
          configGet cfg k = some (JVal.str [])))) ∧
    (∀ k q, configGet cfg k = some (JVal.num q) → k ∉ missingKeys cfg) ∧
    (∀ cfg2 : Config, (∀ k ∈ REQUIRED_KEYS, configGet cfg2 k = configGet cfg k) →
      configValidationError cfg2 = configValidationError cfg) := by
  have hmv : ∀ v : Option JVal, isMissingVal v = true ↔
      (v = none ∨ v = some JVal.null ∨ v = some (JVal.str [])) := by
    intro v
    rcases v with - | v
    · simp [isMissingVal]
    · rcases v with - | s | q | b <;> simp [isMissingVal, List.isEmpty_iff]
  refine ⟨?_, ?_, ?_, ?_⟩
  · constructor
    · intro h
      rw [configValidationError] at h
      by_cases hne : missingKeys cfg ≠ []
      · rcases hmk : missingKeys cfg with - | ⟨k, ks⟩
        · exact absurd hmk hne
        · have hk : k ∈ missingKeys cfg := by
            rw [hmk]; exact List.mem_cons_self _ _
          obtain ⟨hk1, hk2⟩ := List.mem_filter.mp hk
          exact ⟨k, hk1, (hmv _).mp hk2⟩
      · rw [if_neg hne] at h
        exact absurd h (by simp)
    · rintro ⟨k, hk, hv⟩
      have hmem : k ∈ missingKeys cfg :=
        List.mem_filter.mpr ⟨hk, (hmv _).mpr hv⟩
      have hne : missingKeys cfg ≠ [] := by
        intro h0
        rw [h0] at hmem
        simp at hmem
      rw [configValidationError, if_pos hne]
      rfl
  · intro ks hks k
    rw [configValidationError] at hks
    by_cases hne : missingKeys cfg ≠ []
    · rw [if_pos hne] at hks
      cases hks
      rw [missingKeys, List.mem_filter, hmv]
    · rw [if_neg hne] at hks
      cases hks
  · intro k q hkq hmem
    obtain ⟨-, h2⟩ := List.mem_filter.mp hmem
    rw [hkq] at h2
    simp [isMissingVal] at h2
  · intro cfg2 hagree
    have h : missingKeys cfg2 = missingKeys cfg := by
      rw [missingKeys, missingKeys]
      exact List.filter_congr (fun k hk => by rw [hagree k hk])
    rw [configValidationError, configValidationError, h]

/-- C9 witness: a config carrying only `CENTER_X = 0` fails validation naming
the other eight keys (0 itself passes); a fully-populated config passes. -/
theorem Plant3D.config_validation_correct_witness :
    (configValidationError [(("CENTER_X").data, JVal.num 0)]).isSome ∧
    (("CENTER_X").data ∉ missingKeys [(("CENTER_X").data, JVal.num 0)]) ∧
    configValidationError
        (REQUIRED_KEYS.map (fun k => (k, JVal.num 1))) = none :=
  ⟨(config_validation_correct _).1.mpr
      ⟨("PROJECT_NAME").data, by decide, by decide⟩,
   (config_validation_correct _).2.2.1 (("CENTER_X").data) 0 (by decide),
   by
    have h := (config_validation_correct
      (REQUIRED_KEYS.map (fun k => (k, JVal.num 1)))).2.2.2
    decide⟩

/-- C8: in both copies of `upload_arduino`, the function returns `True` iff
the compile subprocess and the upload subprocess both exit with return code 0,
and a nonzero compile return code yields `False` with the upload subprocess
never executed (the executed-call list holds only the compile call). -/
theorem upload_arduino_returns_iff (exec : SubprocessSem)
    (file port fqbn dir : PyStr) :
    ((PhotogrammetryPipelineUpload.upload_arduino exec file port fqbn dir).1 = true ↔
      (exec (PhotogrammetryPipelineUpload.compileCall file fqbn dir) = 0 ∧
        exec (PhotogrammetryPipelineUpload.uploadCall file port fqbn dir) = 0)) ∧
    (exec (PhotogrammetryPipelineUpload.compileCall file fqbn dir) ≠ 0 →
      PhotogrammetryPipelineUpload.upload_arduino exec file port fqbn dir =
        (false, [PhotogrammetryPipelineUpload.compileCall file fqbn dir])) ∧
    ((PhotogrammetricAnalysisUpload.upload_arduino exec file port fqbn dir).1 = true ↔
      (exec (PhotogrammetricAnalysisUpload.compileCall file fqbn dir) = 0 ∧
        exec (PhotogrammetricAnalysisUpload.uploadCall file port fqbn dir) = 0)) ∧
    (exec (PhotogrammetricAnalysisUpload.compileCall file fqbn dir) ≠ 0 →
      PhotogrammetricAnalysisUpload.upload_arduino exec file port fqbn dir =
        (false, [PhotogrammetricAnalysisUpload.compileCall file fqbn dir])) := by
  refine ⟨?_, ?_, ?_, ?_⟩
  · rw [PhotogrammetryPipelineUpload.upload_arduino]
    by_cases h1 : exec (PhotogrammetryPipelineUpload.compileCall file fqbn dir) = 0
    · by_cases h2 :
          exec (PhotogrammetryPipelineUpload.uploadCall file port fqbn dir) = 0 <;>
        simp [h1, h2]
    · simp [h1]
  · intro h1
    rw [PhotogrammetryPipelineUpload.upload_arduino, if_neg h1]
  · rw [PhotogrammetricAnalysisUpload.upload_arduino]
    by_cases h1 : exec (PhotogrammetricAnalysisUpload.compileCall file fqbn dir) = 0
    · by_cases h2 :
          exec (PhotogrammetricAnalysisUpload.uploadCall file port fqbn dir) = 0 <;>
        simp [h1, h2]
    · simp [h1]
  · intro h1
    rw [PhotogrammetricAnalysisUpload.upload_arduino, if_neg h1]

/-- C8 witness: with a semantics where every subprocess fails, the compile
failure short-circuits: result `false` and only the compile call runs. -/
theorem upload_arduino_returns_iff_witness :
    PhotogrammetryPipelineUpload.upload_arduino (fun _ => 1)
        ("t.ino").data ("COM5").data ("arduino:avr:uno").data ("D").data =
      (false,
        [PhotogrammetryPipelineUpload.compileCall ("t.ino").data
          ("arduino:avr:uno").data ("D").data]) ∧
    ((PhotogrammetryPipelineUpload.upload_arduino (fun _ => 0)
        ("t.ino").data ("COM5").data ("arduino:avr:uno").data ("D").data).1 = true) :=
  ⟨(upload_arduino_returns_iff (fun _ => 1) ("t.ino").data ("COM5").data
      ("arduino:avr:uno").data ("D").data).2.1 (by decide),
   (upload_arduino_returns_iff (fun _ => 0) ("t.ino").data ("COM5").data
      ("arduino:avr:uno").data ("D").data).1.mpr ⟨rfl, rfl⟩⟩

/-- C5 counterexample: called with identical arguments (here
`arduino_cli_dir = "C:\\A"`) the two helpers do not compute the same
arduino-cli executable path — `photogrammetry_pipeline` appends
`".\\arduino-cli.exe"`, `photogrammetric_analysis` appends
`"\\arduino-cli.exe"` — and hence do not run the same command sequences. -/
theorem upload_helpers_differ :
    PhotogrammetryPipelineUpload.arduinoCliPath ("C:\\A").data ≠
      PhotogrammetricAnalysisUpload.arduinoCliPath ("C:\\A").data ∧
    PhotogrammetryPipelineUpload.upload_arduino (fun _ => 0)
        ("t.ino").data ("COM5").data ("arduino:avr:uno").data ("C:\\A").data ≠
      PhotogrammetricAnalysisUpload.upload_arduino (fun _ => 0)
        ("t.ino").data ("COM5").data ("arduino:avr:uno").data ("C:\\A").data := by
  decide

/-- C5 amended: with the same arguments the two helpers issue the same
compile-then-upload sequence up to the executable path — equal argument tails
and working directories, equal boolean results whenever the subprocess
semantics depends only on those — but the executable path of the
`photogrammetry_pipeline` copy is `dir + ".\\arduino-cli.exe"` while the
`photogrammetric_analysis` copy computes `dir + "\\arduino-cli.exe"`, and the
two paths are never equal. -/
theorem upload_helpers_equal_up_to_path
    (g : List PyStr → PyStr → Int) (file port fqbn dir : PyStr) :
    ((PhotogrammetryPipelineUpload.upload_arduino
        (fun c => g (c.argv.drop 1) c.cwd) file port fqbn dir).1 =
      (PhotogrammetricAnalysisUpload.upload_arduino
        (fun c => g (c.argv.drop 1) c.cwd) file port fqbn dir).1) ∧
    ((PhotogrammetryPipelineUpload.upload_arduino
        (fun c => g (c.argv.drop 1) c.cwd) file port fqbn dir).2.map
        (fun c => (c.argv.drop 1, c.cwd)) =
      (PhotogrammetricAnalysisUpload.upload_arduino
        (fun c => g (c.argv.drop 1) c.cwd) file port fqbn dir).2.map
        (fun c => (c.argv.drop 1, c.cwd))) ∧
    (∀ c ∈ (PhotogrammetryPipelineUpload.upload_arduino
        (fun c => g (c.argv.drop 1) c.cwd) file port fqbn dir).2,
      c.argv.head? = some (PhotogrammetryPipelineUpload.arduinoCliPath dir)) ∧
    (∀ c ∈ (PhotogrammetricAnalysisUpload.upload_arduino
        (fun c => g (c.argv.drop 1) c.cwd) file port fqbn dir).2,
      c.argv.head? = some (PhotogrammetricAnalysisUpload.arduinoCliPath dir)) ∧
    PhotogrammetryPipelineUpload.arduinoCliPath dir ≠
      PhotogrammetricAnalysisUpload.arduinoCliPath dir := by
  have hlen : (PhotogrammetryPipelineUpload.arduinoCliPath dir).length ≠
      (PhotogrammetricAnalysisUpload.arduinoCliPath dir).length := by
    rw [PhotogrammetryPipelineUpload.arduinoCliPath,
      PhotogrammetricAnalysisUpload.arduinoCliPath, List.length_append,
      List.length_append,
      show ((".\\arduino-cli.exe").data).length = 17 from rfl,
      show (("\\arduino-cli.exe").data).length = 16 from rfl]
    omega
  have hc : (fun c : UploadCall => g (c.argv.drop 1) c.cwd)
        (PhotogrammetricAnalysisUpload.compileCall file fqbn dir) =
      (fun c : UploadCall => g (c.argv.drop 1) c.cwd)
        (PhotogrammetryPipelineUpload.compileCall file fqbn dir) := rfl
  have hu : (fun c : UploadCall => g (c.argv.drop 1) c.cwd)
        (PhotogrammetricAnalysisUpload.uploadCall file port fqbn dir) =
      (fun c : UploadCall => g (c.argv.drop 1) c.cwd)
        (PhotogrammetryPipelineUpload.uploadCall file port fqbn dir) := rfl
  refine ⟨?_, ?_, ?_, ?_, fun h => hlen (by rw [h])⟩ <;>
    by_cases h1 : (fun c : UploadCall => g (c.argv.drop 1) c.cwd)
      (PhotogrammetryPipelineUpload.compileCall file fqbn dir) = 0 <;>
    by_cases h2 : (fun c : UploadCall => g (c.argv.drop 1) c.cwd)
      (PhotogrammetryPipelineUpload.uploadCall file port fqbn dir) = 0 <;>
    simp only [PhotogrammetryPipelineUpload.upload_arduino,
      PhotogrammetricAnalysisUpload.upload_arduino, hc, hu, h1, h2,
      if_true, if_false, ite_true, ite_false, if_pos, if_neg] <;>
    simp_all [PhotogrammetryPipelineUpload.compileCall,
      PhotogrammetricAnalysisUpload.compileCall,
      PhotogrammetryPipelineUpload.uploadCall,
      PhotogrammetricAnalysisUpload.uploadCall,
      PhotogrammetryPipelineUpload.arduinoCliPath,
      PhotogrammetricAnalysisUpload.arduinoCliPath]

/-- C5 amended witness: with an all-zero subprocess semantics and concrete
arguments, both helpers report success while the executable paths differ. -/
theorem upload_helpers_equal_up_to_path_witness :
    ((PhotogrammetryPipelineUpload.upload_arduino
        (fun c => (fun _ _ => (0 : Int)) (c.argv.drop 1) c.cwd)
        ("t.ino").data ("COM5").data ("arduino:avr:uno").data ("C:\\A").data).1 =
      (PhotogrammetricAnalysisUpload.upload_arduino
        (fun c => (fun _ _ => (0 : Int)) (c.argv.drop 1) c.cwd)
        ("t.ino").data ("COM5").data ("arduino:avr:uno").data ("C:\\A").data).1) ∧
    PhotogrammetryPipelineUpload.arduinoCliPath ("C:\\A").data ≠
      PhotogrammetricAnalysisUpload.arduinoCliPath ("C:\\A").data :=
  ⟨(upload_helpers_equal_up_to_path (fun _ _ => (0 : Int)) ("t.ino").data
      ("COM5").data ("arduino:avr:uno").data ("C:\\A").data).1,
   (upload_helpers_equal_up_to_path (fun _ _ => (0 : Int)) ("t.ino").data
      ("COM5").data ("arduino:avr:uno").data ("C:\\A").data).2.2.2.2⟩

/-- C2 counterexample: in the paired RGB+NIR loop, an RGB buffer whose
`RetrieveBuffer` result is OK but whose operational result fails is never
queued back to source0 in that iteration — the `QueueBuffer` call sits inside
the `result.IsOK() and operational_result.IsOK()` branch. -/
theorem CameraControl.paired_loop_drops_buffer :
    CameraControl.AcqEvent.queueTo 0 ∉
      CameraControl.pairedIteration ⟨true, false⟩ ⟨true, true⟩ := by
  decide

/-- C2 amended: in the alternating loop every buffer whose retrieve result is
OK (main or trash) is queued back to its own stream within the iteration,
regardless of the operational result; in the paired RGB+NIR loop a buffer is
queued back iff both its retrieve result and its operational result are OK, so
an OK-retrieved buffer with a failing operational result is not requeued there. -/
theorem CameraControl.queue_back_discipline
    (source1Active : Bool) (mainR trashR rgb nir : CameraControl.RetrieveOutcome) :
    (mainR.resultOk = true →
      CameraControl.AcqEvent.queueTo (if source1Active then 1 else 0) ∈
        CameraControl.altIteration source1Active mainR trashR) ∧
    (trashR.resultOk = true →
      CameraControl.AcqEvent.queueTo (if source1Active then 0 else 1) ∈
        CameraControl.altIteration source1Active mainR trashR) ∧
    (CameraControl.AcqEvent.queueTo 0 ∈ CameraControl.pairedIteration rgb nir ↔
      (rgb.resultOk = true ∧ rgb.opOk = true)) ∧
    (CameraControl.AcqEvent.queueTo 1 ∈ CameraControl.pairedIteration rgb nir ↔
      (nir.resultOk = true ∧ nir.opOk = true)) := by
  obtain ⟨mr, mo⟩ := mainR
  obtain ⟨tr, t2⟩ := trashR
  obtain ⟨rr, r2⟩ := rgb
  obtain ⟨nr, n2⟩ := nir
  refine ⟨?_, ?_, ?_, ?_⟩
  · cases source1Active <;> cases mr <;> cases mo <;> cases tr <;> cases t2 <;> decide
  · cases source1Active <;> cases mr <;> cases mo <;> cases tr <;> cases t2 <;> decide
  · cases rr <;> cases r2 <;> cases nr <;> cases n2 <;> decide
  · cases rr <;> cases r2 <;> cases nr <;> cases n2 <;> decide

/-- C2 amended witness: a concrete alternating iteration with a failed
operational result still queues the main buffer; a concrete paired iteration
queues the NIR buffer iff both flags are OK. -/
theorem CameraControl.queue_back_discipline_witness :
    CameraControl.AcqEvent.queueTo 0 ∈
      CameraControl.altIteration false ⟨true, false⟩ ⟨false, false⟩ ∧
    CameraControl.AcqEvent.queueTo 1 ∈
      CameraControl.pairedIteration ⟨true, false⟩ ⟨true, true⟩ :=
  ⟨(CameraControl.queue_back_discipline false ⟨true, false⟩ ⟨false, false⟩
      ⟨true, false⟩ ⟨true, true⟩).1 rfl,
   (CameraControl.queue_back_discipline false ⟨true, false⟩ ⟨false, false⟩
      ⟨true, false⟩ ⟨true, true⟩).2.2.2.mpr ⟨rfl, rfl⟩⟩

/-- C3 counterexample: when the final `P_END` positioning of
`photogramm_analysis.py` fails, the error is logged but the script does not
exit — it still closes the serial port (step 8) and prints the final `[DONE]`
message. -/
theorem PhotogrammAnalysis.p_end_failure_continues :
    PhotogrammAnalysis.ScriptEvent.logError 7 ∈
      PhotogrammAnalysis.photogramm_analysis_main
        ⟨true, true, true, true, true, true, false⟩ ∧
    PhotogrammAnalysis.ScriptEvent.exitCode 1 ∉
      PhotogrammAnalysis.photogramm_analysis_main
        ⟨true, true, true, true, true, true, false⟩ ∧
    PhotogrammAnalysis.ScriptEvent.step 8 ∈
      PhotogrammAnalysis.photogramm_analysis_main
        ⟨true, true, true, true, true, true, false⟩ := by
  decide

/-- C3 amended: every caught failure is logged; failures in steps 1–6 of
`photogramm_analysis.py` exit with code 1 before the rest of the workflow (in
particular step 8 never runs), but a step-7 (`P_END`) failure is logged and
the script continues to step 8 and the final message; likewise a `cut_cuvette`
failure in the `Plant3D.py` main loop is logged and smoothing, component
removal, hole closing and metrics writing still run. -/
theorem error_handling_exit_discipline (o : PhotogrammAnalysis.RunOutcomes)
    (cutOk : Bool) :
    (∀ n, n ∈ [1, 2, 3, 4, 5, 6] →
      PhotogrammAnalysis.ScriptEvent.logError n ∈
          PhotogrammAnalysis.photogramm_analysis_main o →
        PhotogrammAnalysis.ScriptEvent.exitCode 1 ∈
            PhotogrammAnalysis.photogramm_analysis_main o ∧
          PhotogrammAnalysis.ScriptEvent.step 8 ∉
            PhotogrammAnalysis.photogramm_analysis_main o) ∧
    (PhotogrammAnalysis.ScriptEvent.logError 7 ∈
        PhotogrammAnalysis.photogramm_analysis_main o →
      PhotogrammAnalysis.ScriptEvent.exitCode 1 ∉
          PhotogrammAnalysis.photogramm_analysis_main o ∧
        PhotogrammAnalysis.ScriptEvent.step 8 ∈
          PhotogrammAnalysis.photogramm_analysis_main o ∧
        PhotogrammAnalysis.ScriptEvent.done ∈
          PhotogrammAnalysis.photogramm_analysis_main o) ∧
    (o.uploadZeroOk = false →
      PhotogrammAnalysis.ScriptEvent.logError 1 ∈
        PhotogrammAnalysis.photogramm_analysis_main o) ∧
    (cutOk = false →
      Plant3D.PlantOp.logNoCrop ∈ Plant3D.plant3d_postCut cutOk) ∧
    (Plant3D.PlantOp.smoothModelCall ∈ Plant3D.plant3d_postCut cutOk ∧
      Plant3D.PlantOp.writeMetricsLine ∈ Plant3D.plant3d_postCut cutOk) := by
  obtain ⟨a, b, c, d, e, f, g⟩ := o
  cases a <;> cases b <;> cases c <;> cases d <;> cases e <;> cases f <;>
    cases g <;> cases cutOk <;> decide

/-- C3 amended witness: concrete runs — a step-6 failure exits before step 8,
a step-7 failure still reaches step 8, and a failed crop still smooths and
writes metrics. -/
theorem error_handling_exit_discipline_witness :
    (PhotogrammAnalysis.ScriptEvent.exitCode 1 ∈
        PhotogrammAnalysis.photogramm_analysis_main
          ⟨true, true, true, true, true, false, true⟩ ∧
      PhotogrammAnalysis.ScriptEvent.step 8 ∉
        PhotogrammAnalysis.photogramm_analysis_main
          ⟨true, true, true, true, true, false, true⟩) ∧
    PhotogrammAnalysis.ScriptEvent.step 8 ∈
      PhotogrammAnalysis.photogramm_analysis_main
        ⟨true, true, true, true, true, true, false⟩ ∧
    Plant3D.PlantOp.logNoCrop ∈ Plant3D.plant3d_postCut false ∧
    Plant3D.PlantOp.writeMetricsLine ∈ Plant3D.plant3d_postCut false :=
  ⟨(error_handling_exit_discipline ⟨true, true, true, true, true, false, true⟩
      true).1 6 (by decide) (by decide),
   ((error_handling_exit_discipline ⟨true, true, true, true, true, true, false⟩
      true).2.1 (by decide)).2.1,
   (error_handling_exit_discipline ⟨true, true, true, true, true, true, false⟩
      false).2.2.2.1 rfl,
   (error_handling_exit_discipline ⟨true, true, true, true, true, true, false⟩
      false).2.2.2.2.2⟩

/-- C7 counterexample: `convert_command` uses Python `str.replace`, which
replaces every occurrence of `"Move J [*] "`, not only the leading one; on a
command containing the header twice the code result differs from the
prefix-only transformation the claim describes. -/
theorem PhotogrammAnalysis.convert_command_not_prefix_only :
    PhotogrammAnalysis.convert_command ("Move J [*] a Move J [*] b").data ≠
      PhotogrammAnalysis.convert_command_claimC7
        ("Move J [*] a Move J [*] b").data ∧
    PhotogrammAnalysis.convert_command ("Move J [*] a Move J [*] b").data =
      ("MJa MJbLm000000").data ∧
    PhotogrammAnalysis.convert_command_claimC7
        ("Move J [*] a Move J [*] b").data =
      ("MJa Move J [*] bLm000000").data := by
  decide

/-- C7 amended: for a command starting with `"Move J [*]"`, `convert_command`
replaces every occurrence of `"Move J [*] "` by `"MJ"`, then (in list order)
every occurrence of each token `" X "`, `" Y "`, `" Z "`, `" Rz "`, `" Ry "`,
`" Rx "`, `" J7 "`, `" J8 "`, `" J9 "`, `" Sp "`, `" Ac "`, `" Dc "`, `" Rm "`,
`" $ "` by the token without its surrounding spaces, and appends
`"Lm000000"`; any other command is returned unchanged. -/
theorem PhotogrammAnalysis.convert_command_amended (command : PyStr) :
    PhotogrammAnalysis.convert_command command =
      PhotogrammAnalysis.convert_command_specC7 command := by
  have hpairs :
      ([(" X ", "X"), (" Y ", "Y"), (" Z ", "Z"), (" Rz ", "Rz"),
          (" Ry ", "Ry"), (" Rx ", "Rx"), (" J7 ", "J7"), (" J8 ", "J8"),
          (" J9 ", "J9"), (" Sp ", "Sp"), (" Ac ", "Ac"), (" Dc ", "Dc"),
          (" Rm ", "Rm"), (" $ ", "$")].map
            (fun p => (p.1.data, p.2.data)) : List (PyStr × PyStr)) =
        PhotogrammAnalysis.tokenList.map (fun t => (t, pyStrip t)) := by
    decide
  by_cases h : pyStartsWith PhotogrammAnalysis.moveHeader command = true <;>
    simp [PhotogrammAnalysis.convert_command,
      PhotogrammAnalysis.convert_command_specC7, h, hpairs, List.foldl_map]

/-- C6: for a processed sample the height metric is the maximum minus the
minimum of the cut model's projected vertex `Z` coordinates (`None` without a
model), the volume metric is the absolute value of the `volume()` outcome, a
missing metric is rendered as `"NA"`, and the appended line is the
tab-separated label/height/area/volume record built from exactly these
values. -/
theorem Plant3D.cut_metrics_correct (label : PyStr)
    (projZ : Vec3 → ℚ) (m : MeshModel) :
    (m.vertices ≠ [] →
      ∃ hi lo, calculate_height_crs projZ (some m) = some (hi - lo) ∧
        hi ∈ m.vertices.map projZ ∧ lo ∈ m.vertices.map projZ ∧
        ∀ y ∈ m.vertices.map projZ, lo ≤ y ∧ y ≤ hi) ∧
    calculate_height_crs projZ none = none ∧
    (compute_area_volume (some m)).2 = m.volumeResult.map (fun v => |v|) ∧
    compute_area_volume none = (none, none) ∧
    fmtMetric none = ("NA").data ∧
    metricsLine label projZ (some m) =
      label ++ ['\t'] ++ fmtMetric (calculate_height_crs projZ (some m)) ++
        ['\t'] ++ fmtMetric m.areaResult ++ ['\t'] ++
        fmtMetric (m.volumeResult.map (fun v => |v|)) ++ ['\n'] := by
  refine ⟨?_, rfl, rfl, rfl, rfl, rfl⟩
  intro hne
  rcases hmap : m.vertices.map projZ with - | ⟨z, zs⟩
  · exact absurd (List.map_eq_nil_iff.mp hmap) hne
  · refine ⟨zs.foldl max z, zs.foldl min z, ?_, ?_, ?_, ?_⟩
    · simp only [calculate_height_crs, hmap]
    · rcases foldl_max_mem zs z with h | h
      · rw [h]; exact List.mem_cons_self _ _
      · exact List.mem_cons_of_mem _ h
    · rcases foldl_min_mem zs z with h | h
      · rw [h]; exact List.mem_cons_self _ _
      · exact List.mem_cons_of_mem _ h
    · intro y hy
      rcases List.mem_cons.mp hy with rfl | hy
      · exact ⟨foldl_min_le zs y, le_foldl_max zs y⟩
      · exact ⟨foldl_min_le_mem zs z y hy, mem_le_foldl_max zs z y hy⟩

/-- C6 witness: on a two-vertex model with `volume() = -3`, the height metric
is the max-minus-min of the projected `Z` values and the volume cell carries
`|(-3)|`. -/
theorem Plant3D.cut_metrics_correct_witness :
    (∃ hi lo,
      calculate_height_crs (fun v => v.z)
          (some ⟨[⟨0, 0, 2⟩, ⟨0, 0, 5⟩], [], none, some (-3)⟩) = some (hi - lo) ∧
        hi ∈ ([⟨0, 0, 2⟩, ⟨0, 0, 5⟩] : List Vec3).map (fun v => v.z) ∧
        lo ∈ ([⟨0, 0, 2⟩, ⟨0, 0, 5⟩] : List Vec3).map (fun v => v.z) ∧
        ∀ y ∈ ([⟨0, 0, 2⟩, ⟨0, 0, 5⟩] : List Vec3).map (fun v => v.z),
          lo ≤ y ∧ y ≤ hi) ∧
    (compute_area_volume
        (some ⟨[⟨0, 0, 2⟩, ⟨0, 0, 5⟩], [], none, some (-3)⟩)).2 =
      (some (-3) : Option ℚ).map (fun v => |v|) :=
  ⟨(cut_metrics_correct [] (fun v => v.z)
      ⟨[⟨0, 0, 2⟩, ⟨0, 0, 5⟩], [], none, some (-3)⟩).1 (by simp),
   (cut_metrics_correct [] (fun v => v.z)
      ⟨[⟨0, 0, 2⟩, ⟨0, 0, 5⟩], [], none, some (-3)⟩).2.2.1⟩

/-- C1 (code bug): on the demonstration mesh, the face `[0, 1, 2]` — every
projected vertex inside the cylinder and at or above `Z_LIM` — is *selected*
(and hence deleted by `removeSelection()`), while the face `[3, 3, 3]` outside
the cylinder is kept, so the cropped model retains exactly the faces the
function's own docstring says it removes. -/
theorem Plant3D.cut_cuvette_contradicts_doc :
    (faceCoords id demoCutModel.vertices [0, 1, 2]).all
        (fun p => inCylinder demoCutConfig p) = true ∧
    (faceCoords id demoCutModel.vertices [0, 1, 2]).any
        (fun p => decide (p.z < demoCutConfig.zLim)) = false ∧
    faceSelected demoCutConfig id demoCutModel.vertices [0, 1, 2] = true ∧
    (faceCoords id demoCutModel.vertices [3, 3, 3]).all
        (fun p => inCylinder demoCutConfig p) = false ∧
    (cut_cuvette demoCutConfig id demoCutModel).faces = [[3, 3, 3]] := by
  have h1 : (faceCoords id demoCutModel.vertices [0, 1, 2]).all
      (fun p => inCylinder demoCutConfig p) = true := by
    norm_num [faceCoords, inCylinder, demoCutModel, demoCutConfig]
  have h2 : (faceCoords id demoCutModel.vertices [0, 1, 2]).any
      (fun p => decide (p.z < demoCutConfig.zLim)) = false := by
    norm_num [faceCoords, demoCutModel, demoCutConfig]
  have h3 : faceSelected demoCutConfig id demoCutModel.vertices [0, 1, 2] = true := by
    rw [faceSelected]
    simp only [h1, h2]
    rfl
  have h4 : (faceCoords id demoCutModel.vertices [3, 3, 3]).all
      (fun p => inCylinder demoCutConfig p) = false := by
    norm_num [faceCoords, inCylinder, demoCutModel, demoCutConfig]
  have h5 : faceSelected demoCutConfig id demoCutModel.vertices [3, 3, 3] = false := by
    rw [faceSelected]
    simp only [h4]
    rfl
  refine ⟨h1, h2, h3, h4, ?_⟩
  simp [cut_cuvette, show demoCutModel.faces = [[0, 1, 2], [3, 3, 3]] from rfl,
    List.filter, h3, h5]
